import Mathlib

/-!
Verification development for the plugin runtime core of the seanime
repository.

The definitions below are a shallow embedding of the Go sources:

* `internal/plugin/ui/dom.go` — the DOM proxy manager (`DOMManager`):
  request/reply correlation (`jsQuery`, `jsQueryOne`, `jsCreateElement`,
  `getElementText`, `hasElementClass`, …) and the observer protocol
  (`jsObserve`).
* the `plugin_ui` registry (`UI.Register`, constants `MAX_EXCEPTIONS`,
  `MAX_EFFECT_CALLBACKS`, `RESET_EFFECT_CALLBACK_INTERVAL`).
* the `plugin` package (`AppContextImpl`, `NewAppContext`,
  `SetModulesPartial`).

Pieces of the runtime whose implementation is not part of the provided
sources (the per-plugin Scheduler budgets and a few event-type string
constants) are modelled from the specification; each such definition says
so in its doc comment.
-/

namespace Seanime

/-- A dynamically typed value as it crosses the WebSocket bus
(the embedding of Go's `interface{}` payload values: JSON-like data). -/
inductive GoValue where
  | null : GoValue
  | str : String → GoValue
  | boolean : Bool → GoValue
  | num : Int → GoValue
  | obj : List (String × GoValue) → GoValue
  | arr : List GoValue → GoValue

/-- `ClientDOMElementUpdatedEventPayload` from `dom.go`: the reply payload
for a DOM manipulation (`dom:elementUpdated`). -/
structure ClientDOMElementUpdatedEventPayload where
  elementId : String
  action : String
  result : GoValue
  requestId : String

/-- `ClientDOMQueryResultEventPayload` from `dom.go`: the reply payload for
`dom:query` (`dom:queryResult`). -/
structure ClientDOMQueryResultEventPayload where
  requestId : String
  elements : List GoValue

/-- `ClientDOMQueryOneResultEventPayload` from `dom.go`: the reply payload
for `dom:queryOne` (`dom:queryOneResult`); `element` is `none` when the
client sent no element or one that is not a JSON object. -/
structure ClientDOMQueryOneResultEventPayload where
  requestId : String
  element : Option GoValue

/-- `ClientDOMCreateResultEventPayload` from `dom.go`: the reply payload for
`dom:create` (`dom:createResult`). -/
structure ClientDOMCreateResultEventPayload where
  requestId : String
  element : Option GoValue

/-- The condition under which the listener registered by `jsQuery`
(dom.go, lines 87–101) consumes a `dom:queryResult` reply:
the reply's requestId equals the one generated for the request. -/
def jsQueryMatch (requestId : String) (p : ClientDOMQueryResultEventPayload) : Bool :=
  p.requestId == requestId

/-- The condition under which the listener registered by `jsQueryOne`
(dom.go, lines 125–141) consumes a `dom:queryOneResult` reply. -/
def jsQueryOneMatch (requestId : String) (p : ClientDOMQueryOneResultEventPayload) : Bool :=
  p.requestId == requestId

/-- The condition under which the listener registered by `jsCreateElement`
(dom.go, lines 260–270) consumes a `dom:createResult` reply. -/
def jsCreateElementMatch (requestId : String) (p : ClientDOMCreateResultEventPayload) : Bool :=
  p.requestId == requestId

/-- The condition under which the listener registered by `getElementText`
(dom.go, lines 503–521) consumes a `dom:elementUpdated` reply: matching
action, element ID and request ID. -/
def getElementTextMatch (elementId requestId : String)
    (p : ClientDOMElementUpdatedEventPayload) : Bool :=
  p.action == "getText" && p.elementId == elementId && p.requestId == requestId

/-- The condition under which the listener registered by `hasElementClass`
(dom.go, lines 630–647) consumes a `dom:elementUpdated` reply. -/
def hasElementClassMatch (elementId requestId : String)
    (p : ClientDOMElementUpdatedEventPayload) : Bool :=
  p.action == "hasClass" && p.elementId == elementId && p.requestId == requestId

/-- State of one of the one-shot reply listeners created by the DOM proxy
request functions: whether the listener is still registered in the
Context's listener table, and which replies it has consumed so far. -/
structure OneShotState (α : Type) where
  registered : Bool
  consumed : List α

/-- A freshly registered one-shot reply listener (`ctx.RegisterEventListener`
followed by `listener.SetCallback` in each DOM request function). -/
def oneShotInit {α : Type} : OneShotState α :=
  { registered := true, consumed := [] }

/-- Processing of one incoming reply by a one-shot listener, as written in
each DOM request function of `dom.go`: while registered, a reply satisfying
the match condition is consumed (its resolution is scheduled) and the
listener unregisters itself (`ctx.UnregisterEventListener`) in the same
callback; any other reply leaves the listener untouched. -/
def oneShotStep {α : Type} (accepts : α → Bool) (s : OneShotState α) (r : α) : OneShotState α :=
  if s.registered && accepts r then
    { registered := false, consumed := s.consumed ++ [r] }
  else s

/-- A one-shot listener processing a stream of replies in arrival order
(replies whose payload fails `ParsePayloadAs` behave like non-matching
replies and are omitted from the stream). -/
def oneShotRun {α : Type} (accepts : α → Bool) (s : OneShotState α) (rs : List α) :
    OneShotState α :=
  rs.foldl (oneShotStep accepts) s

/-- Outcome of a DOM request promise after a listener callback ran. -/
inductive PromiseOutcome where
  | pending : PromiseOutcome
  | resolved : GoValue → PromiseOutcome
  | rejected : GoValue → PromiseOutcome

/-- Whether a promise outcome is a rejection. -/
def PromiseOutcome.isRejected : PromiseOutcome → Bool
  | .rejected _ => true
  | _ => false

/-- Whether a `GoValue` is a string (the embedding of the Go type
assertion `payload.Result.(string)`). -/
def GoValue.isStr : GoValue → Bool
  | .str _ => true
  | _ => false

/-- Whether a `GoValue` is a boolean (the embedding of the Go type
assertion `payload.Result.(bool)`). -/
def GoValue.isBool : GoValue → Bool
  | .boolean _ => true
  | _ => false

/-- What the listener callback of `getElementText` (dom.go, lines 503–522)
does to the request's promise on one `dom:elementUpdated` reply: on a
matching reply it resolves with the string result, or with `""` when the
result is not a string; the reject half of the promise was discarded at
creation (`promise, resolve, _ := d.ctx.vm.NewPromise()`), so no reply can
reject. -/
def getElementTextOnReply (elementId requestId : String)
    (p : ClientDOMElementUpdatedEventPayload) : PromiseOutcome :=
  if p.action == "getText" && p.elementId == elementId && p.requestId == requestId then
    match p.result with
    | .str v => .resolved (.str v)
    | _ => .resolved (.str "")
  else .pending

/-- The listener callback of `getElementStyle` (dom.go, lines 683–701)
acting on the request's promise for one reply. -/
def getElementStyleOnReply (elementId requestId : String)
    (p : ClientDOMElementUpdatedEventPayload) : PromiseOutcome :=
  if p.elementId == elementId then
    if p.action == "getStyle" && p.requestId == requestId then
      match p.result with
      | .str v => .resolved (.str v)
      | _ => .resolved (.str "")
    else .pending
  else .pending

/-- The listener callback of `getElementComputedStyle` (dom.go,
lines 724–741) acting on the request's promise for one reply. -/
def getElementComputedStyleOnReply (elementId requestId : String)
    (p : ClientDOMElementUpdatedEventPayload) : PromiseOutcome :=
  if p.elementId == elementId then
    if p.action == "getComputedStyle" && p.requestId == requestId then
      match p.result with
      | .str v => .resolved (.str v)
      | _ => .resolved (.str "")
    else .pending
  else .pending

/-- The listener callback of `hasElementClass` (dom.go, lines 630–648)
acting on the request's promise for one reply: a matching reply resolves
with the boolean result, or with `false` when the result is not a
boolean. -/
def hasElementClassOnReply (elementId requestId : String)
    (p : ClientDOMElementUpdatedEventPayload) : PromiseOutcome :=
  if p.action == "hasClass" && p.elementId == elementId && p.requestId == requestId then
    match p.result with
    | .boolean v => .resolved (.boolean v)
    | _ => .resolved (.boolean false)
  else .pending

/-- The listener callback of `hasElementAttribute` (dom.go, lines 974–990)
acting on the request's promise for one reply. -/
def hasElementAttributeOnReply (elementId requestId : String)
    (p : ClientDOMElementUpdatedEventPayload) : PromiseOutcome :=
  if p.action == "hasAttribute" && p.elementId == elementId && p.requestId == requestId then
    match p.result with
    | .boolean v => .resolved (.boolean v)
    | _ => .resolved (.boolean false)
  else .pending

/-- The listener callback of `hasElementStyle` (dom.go, lines 1092–1108)
acting on the request's promise for one reply. -/
def hasElementStyleOnReply (elementId requestId : String)
    (p : ClientDOMElementUpdatedEventPayload) : PromiseOutcome :=
  if p.action == "hasStyle" && p.elementId == elementId && p.requestId == requestId then
    match p.result with
    | .boolean v => .resolved (.boolean v)
    | _ => .resolved (.boolean false)
  else .pending

/-- The listener callback of `hasElementDataAttribute` (dom.go,
lines 1220–1236) acting on the request's promise for one reply. -/
def hasElementDataAttributeOnReply (elementId requestId : String)
    (p : ClientDOMElementUpdatedEventPayload) : PromiseOutcome :=
  if p.action == "hasDataAttribute" && p.elementId == elementId && p.requestId == requestId then
    match p.result with
    | .boolean v => .resolved (.boolean v)
    | _ => .resolved (.boolean false)
  else .pending

/-- An event sent from the server to the client by the observer half of the
DOM proxy (`ServerDOMObserveEventPayload` and
`ServerDOMStopObserveEventPayload` in `dom.go`). -/
inductive DomServerEvent where
  | observe : String → String → DomServerEvent
  | stopObserve : String → DomServerEvent
deriving DecidableEq

/-- An input acting on the state created by one `jsObserve` call:
a `dom:observeResult` client event carried to the result listener, a
`dom:ready` client event carried to the ready listener, or a run of the
cancel function (invoked either by the script or by the Context's cleanup
at unload, which `jsObserve` arranges via `registerOnCleanup(cancelFn)`). -/
inductive ObserveInput where
  | observeResult : String → List GoValue → ObserveInput
  | domReady : ObserveInput
  | cancel : ObserveInput

/-- The state set up by one `jsObserve` call (dom.go, lines 154–245):
whether the observer is stored in `elementObservers`, whether the
`dom:observeResult` listener and the one-shot `dom:ready` listener are
registered, the events sent to the client so far, and the element
snapshots the observer's callback has been invoked with. -/
structure ObserveState where
  selector : String
  observerId : String
  observerStored : Bool
  resultListenerRegistered : Bool
  readyListenerRegistered : Bool
  sent : List DomServerEvent
  callbackRuns : List (List GoValue)

/-- The state right after `jsObserve` returns: the observer is stored, the
initial `dom:observe` request was sent, and both listeners are
registered. -/
def jsObserveInit (selector observerId : String) : ObserveState :=
  { selector := selector
    observerId := observerId
    observerStored := true
    resultListenerRegistered := true
    readyListenerRegistered := true
    sent := [.observe selector observerId]
    callbackRuns := [] }

/-- One step of the observer state machine, following `jsObserve`:
a `dom:observeResult` whose observerId matches runs the callback while the
listener is registered and the observer still stored; a `dom:ready` makes
the ready listener re-send the `dom:observe` request and then unregister
itself (dom.go, lines 213–220); the cancel function unregisters both
listeners, deletes the observer and sends `dom:stopObserve` (dom.go,
lines 223–231). -/
def observeStep (s : ObserveState) : ObserveInput → ObserveState
  | .observeResult oid elems =>
    if s.resultListenerRegistered && oid == s.observerId then
      if s.observerStored then
        { s with callbackRuns := s.callbackRuns ++ [elems] }
      else s
    else s
  | .domReady =>
    if s.readyListenerRegistered then
      { s with
        sent := s.sent ++ [.observe s.selector s.observerId]
        readyListenerRegistered := false }
    else s
  | .cancel =>
    { s with
      resultListenerRegistered := false
      readyListenerRegistered := false
      observerStored := false
      sent := s.sent ++ [.stopObserve s.observerId] }

/-- Running the observer state machine over a sequence of inputs in
arrival order. -/
def observeRun (s : ObserveState) (t : List ObserveInput) : ObserveState :=
  t.foldl observeStep s

/-- Number of `dom:observe` requests among a list of sent events. -/
def countObserveSends (l : List DomServerEvent) : Nat :=
  l.countP (fun e => match e with | .observe _ _ => true | _ => false)

/-- `ClientPluginEvent` as decoded by `NewClientPluginEvent` in the
`plugin_ui` package: the extension ID, the client event type, and its
payload. -/
structure ClientPluginEvent where
  extensionId : String
  type : String
  payload : GoValue

/-- A WebSocket envelope as read from the subscriber channel in
`UI.Register`; `payload` is `none` when the envelope payload is not a
`map[string]interface` value (the Go type assertion in `Register`
fails and the envelope is skipped). -/
structure WSEvent where
  type : String
  payload : Option ClientPluginEvent

/-- Modelled from the spec: the `events.PluginEvent` envelope type constant
compared against in `UI.Register`; its defining Go file is not among the
provided sources, so its concrete string is chosen arbitrarily (only
equality with it matters). -/
def PluginEvent : String := "plugin-event"

/-- Modelled from the spec: the `ClientRenderTraysEvent` client event type
(`client:render_trays` in the spec's interface list); its defining Go file
is not among the provided sources. -/
def ClientRenderTraysEvent : String := "tray:render_trays"

/-- Modelled from the spec: the `ClientRenderTrayEvent` client event type
(`client:render_tray` in the spec's interface list); its defining Go file
is not among the provided sources. -/
def ClientRenderTrayEvent : String := "tray:render_tray"

/-- An entry of the Context's `eventListeners` table as used by
`UI.Register`: the filter list `ListenTo` and the delivery channel, whose
queued contents we record as a list (capacity is treated in
`channelSend`). -/
structure EventListener where
  id : String
  listenTo : List String
  channel : List ClientPluginEvent

/-- The part of the `UI` registry state that the fan-out goroutine of
`UI.Register` reads and writes: the plugin's extension ID, the listener
table, and a count of tray render requests routed to the Tray Manager. -/
structure UIFanoutState where
  extensionId : String
  listeners : List EventListener
  trayRenders : Nat

/-- The fan-out loop body of `UI.Register` for one listener: when the
listener's `ListenTo` list is non-empty the inner loop sends one copy of
the event per occurrence of its type in the list; otherwise the event is
sent unconditionally. -/
def deliverToListener (ev : ClientPluginEvent) (l : EventListener) : EventListener :=
  if 0 < l.listenTo.length then
    l.listenTo.foldl
      (fun acc t => if t == ev.type then { acc with channel := acc.channel ++ [ev] } else acc) l
  else
    { l with channel := l.channel ++ [ev] }

/-- The body of the fan-out goroutine started by `UI.Register` for one
WebSocket envelope: only envelopes of type `events.PluginEvent` whose
payload is a map are considered; the extension ID must be empty or equal
to the plugin's; tray render event types are routed to the Tray Manager;
every other event is fanned out to the listener table. -/
def handleClientEvent (u : UIFanoutState) (event : WSEvent) : UIFanoutState :=
  if event.type == PluginEvent then
    match event.payload with
    | some clientEvent =>
      if clientEvent.extensionId == "" || clientEvent.extensionId == u.extensionId then
        if clientEvent.type == ClientRenderTraysEvent then
          { u with trayRenders := u.trayRenders + 1 }
        else if clientEvent.type == ClientRenderTrayEvent then
          { u with trayRenders := u.trayRenders + 1 }
        else
          { u with listeners := u.listeners.map (deliverToListener clientEvent) }
      else u
    | none => u
  else u

/-- The event payload delivered to the plugin's event listeners by
`handleClientEvent`, when any: this is the amended delivery condition
(extension ID empty or matching, payload a map, and the type not routed to
the Tray Manager). -/
def deliveredToListeners (u : UIFanoutState) (event : WSEvent) : Option ClientPluginEvent :=
  match event.payload with
  | some clientEvent =>
    if event.type == PluginEvent
        && (clientEvent.extensionId == "" || clientEvent.extensionId == u.extensionId)
        && !(clientEvent.type == ClientRenderTraysEvent)
        && !(clientEvent.type == ClientRenderTrayEvent) then
      some clientEvent
    else none
  | none => none

/-- How many copies of an event the fan-out loop sends to one listener:
one when the filter list is empty, otherwise one per occurrence of the
event's type in the filter list. -/
def listenerCopies (l : EventListener) (ev : ClientPluginEvent) : Nat :=
  if 0 < l.listenTo.length then l.listenTo.countP (fun t => t == ev.type) else 1

/-- The semantics of the Go channel send `listener.Channel <- clientEvent`
performed by the fan-out loop of `UI.Register` on a channel of capacity
`cap` currently holding `queue`: when the channel has room the event is
appended at the back; when the channel is full the send blocks — the
result `none` means the sender is blocked, nothing is enqueued and nothing
is dropped. -/
def channelSend {α : Type} (cap : Nat) (queue : List α) (x : α) : Option (List α) :=
  if queue.length < cap then some (queue ++ [x]) else none

/-- The identity-relevant state of a `UI` value for `$ui.register`:
the identity of `u.context` (allocated once by `NewUI` via `NewContext`),
the identity of the Context's `eventListeners` table, the identity of the
current `wsSubscriber`, the number of fan-out goroutines started, and a
fresh-identity counter. -/
structure UIRegistrationState where
  contextId : Nat
  listenerTableId : Nat
  subscriberId : Option Nat
  fanoutGoroutines : Nat
  nextId : Nat

/-- The state produced by `NewUI`: the Context and its listener table are
allocated once here; no subscriber exists and no fan-out goroutine runs
until `Register` is called. -/
def NewUIState : UIRegistrationState :=
  { contextId := 0
    listenerTableId := 1
    subscriberId := none
    fanoutGoroutines := 0
    nextId := 2 }

/-- The embedding of `UI.Register` (part_001, lines 646–732) restricted to
object identity: it overwrites `u.context.wsSubscriber` with a fresh
subscription, starts one more fan-out goroutine reading from it, and runs
the setup callback against the existing `u.context`; it never allocates a
new Context or a new listener table. -/
def Register (u : UIRegistrationState) : UIRegistrationState :=
  { u with
    subscriberId := some u.nextId
    nextId := u.nextId + 1
    fanoutGoroutines := u.fanoutGoroutines + 1 }

/-- `MAX_EXCEPTIONS` from the `plugin_ui` constants block. -/
def MAX_EXCEPTIONS : Nat := 5

/-- `MAX_EFFECT_CALLBACKS` from the `plugin_ui` constants block. -/
def MAX_EFFECT_CALLBACKS : Nat := 100

/-- `RESET_EFFECT_CALLBACK_INTERVAL` from the `plugin_ui` constants block
(`1 * time.Second`), in milliseconds. -/
def RESET_EFFECT_CALLBACK_INTERVAL_MS : Nat := 1000

/-- Modelled from the spec: an input to the per-plugin Scheduler's effect
budget, whose implementing Go file is not among the provided sources —
either an effect callback submitted for execution, or the periodic reset
tick that fires every `RESET_EFFECT_CALLBACK_INTERVAL`. -/
inductive EffectOp where
  | effect : EffectOp
  | reset : EffectOp

/-- Modelled from the spec: the Scheduler's effect budget state — the
bounded counter, the interrupt flag, and how many effect callbacks have
actually executed since the last reset tick. -/
structure EffectBudgetState where
  effectCount : Nat
  interrupted : Bool
  executedInWindow : Nat

/-- Modelled from the spec: the effect budget state at plugin load. -/
def initEffectBudget : EffectBudgetState :=
  { effectCount := 0, interrupted := false, executedInWindow := 0 }

/-- Modelled from the spec: one step of the effect budget. A submitted
effect on a live VM increments the counter; if that exceeds
`MAX_EFFECT_CALLBACKS` the VM is interrupted and the effect does not
execute, otherwise the effect executes. The reset tick clears the window.
An interrupted VM executes nothing. -/
def effectStep (s : EffectBudgetState) : EffectOp → EffectBudgetState
  | .effect =>
    if s.interrupted then s
    else if MAX_EFFECT_CALLBACKS < s.effectCount + 1 then
      { s with effectCount := s.effectCount + 1, interrupted := true }
    else
      { s with
        effectCount := s.effectCount + 1
        executedInWindow := s.executedInWindow + 1 }
  | .reset => { s with effectCount := 0, executedInWindow := 0 }

/-- Running the effect budget over a sequence of operations. -/
def effectRun (s : EffectBudgetState) (ops : List EffectOp) : EffectBudgetState :=
  ops.foldl effectStep s

/-- Modelled from the spec: the per-plugin exception policy state — the
exception counter, the interrupt flag, and how many plugin-level error
events were emitted. -/
structure ExceptionState where
  exceptionCount : Nat
  interrupted : Bool
  errorEvents : Nat

/-- Modelled from the spec: the exception policy state at plugin load. -/
def initExceptionState : ExceptionState :=
  { exceptionCount := 0, interrupted := false, errorEvents := 0 }

/-- Modelled from the spec: handling of one uncaught exception in a plugin
task, whose implementing Go file is not among the provided sources. Each
unrecovered exception on a live VM increments the per-plugin counter;
exceeding `MAX_EXCEPTIONS` transitions the VM to Interrupted and emits a
plugin-level error event. -/
def handleException (s : ExceptionState) : ExceptionState :=
  if s.interrupted then s
  else if MAX_EXCEPTIONS < s.exceptionCount + 1 then
    { exceptionCount := s.exceptionCount + 1
      interrupted := true
      errorEvents := s.errorEvents + 1 }
  else { s with exceptionCount := s.exceptionCount + 1 }

/-- The exception policy state after `n` uncaught exceptions. -/
def exceptionRun (n : Nat) : ExceptionState :=
  Nat.rec initExceptionState (fun _ s => handleException s) n

/-- `AppContextModules` from the `plugin` package: the optional module
pointers passed to `SetModulesPartial` (`none` embeds a nil Go pointer).
The function-typed refresh callbacks are embedded as `Option Unit`. -/
structure AppContextModules (Db Pm Mpr Ap Ws : Type) where
  database : Option Db
  animeLibraryPaths : Option (List String)
  anilistPlatform : Option Ap
  playbackManager : Option Pm
  mediaPlayerRepository : Option Mpr
  wsEventManager : Option Ws
  onRefreshAnilistAnimeCollection : Option Unit
  onRefreshAnilistMangaCollection : Option Unit

/-- `AppContextImpl` from the `plugin` package: the process-wide handles,
each an option (`mo.Option` in Go). -/
structure AppContextImpl (Db Pm Mpr Ap Ws : Type) where
  animeLibraryPaths : Option (List String)
  wsEventManager : Option Ws
  database : Option Db
  playbackManager : Option Pm
  mediaplayerRepo : Option Mpr
  anilistPlatform : Option Ap
  onRefreshAnilistAnimeCollection : Option Unit
  onRefreshAnilistMangaCollection : Option Unit

/-- `NewAppContext` from the `plugin` package: it explicitly initializes
`database`, `playbackManager`, `mediaplayerRepo` and `anilistPlatform` to
`mo.None`; the remaining handles stay at the `mo.Option` zero value, which
is also None. -/
def NewAppContext (Db Pm Mpr Ap Ws : Type) : AppContextImpl Db Pm Mpr Ap Ws :=
  { animeLibraryPaths := none
    wsEventManager := none
    database := none
    playbackManager := none
    mediaplayerRepo := none
    anilistPlatform := none
    onRefreshAnilistAnimeCollection := none
    onRefreshAnilistMangaCollection := none }

/-- `SetModulesPartial` from the `plugin` package (part_000,
lines 115–143), transcribed nil-check by nil-check in source order.
The source contains no case for `modules.MediaPlayerRepository`, so the
`mediaplayerRepo` handle is never written here. -/
def SetModulesPartial {Db Pm Mpr Ap Ws : Type} (a : AppContextImpl Db Pm Mpr Ap Ws)
    (modules : AppContextModules Db Pm Mpr Ap Ws) : AppContextImpl Db Pm Mpr Ap Ws :=
  let a1 := match modules.database with
    | some d => { a with database := some d }
    | none => a
  let a2 := match modules.animeLibraryPaths with
    | some p => { a1 with animeLibraryPaths := some p }
    | none => a1
  let a3 := match modules.playbackManager with
    | some p => { a2 with playbackManager := some p }
    | none => a2
  let a4 := match modules.anilistPlatform with
    | some p => { a3 with anilistPlatform := some p }
    | none => a3
  let a5 := match modules.onRefreshAnilistAnimeCollection with
    | some f => { a4 with onRefreshAnilistAnimeCollection := some f }
    | none => a4
  let a6 := match modules.onRefreshAnilistMangaCollection with
    | some f => { a5 with onRefreshAnilistMangaCollection := some f }
    | none => a5
  match modules.wsEventManager with
    | some w => { a6 with wsEventManager := some w }
    | none => a6

/-- A one-shot listener with acceptance condition `accepts` behaves soundly
on a reply stream: it consumes at most one reply, every consumed reply
satisfies `good`, and while it is still registered it has consumed
nothing. -/
def OneShotSound {α : Type} (accepts : α → Bool) (good : α → Prop) (rs : List α) : Prop :=
  (oneShotRun accepts oneShotInit rs).consumed.length ≤ 1
  ∧ (∀ p ∈ (oneShotRun accepts oneShotInit rs).consumed, good p)
  ∧ ((oneShotRun accepts oneShotInit rs).registered = true →
      (oneShotRun accepts oneShotInit rs).consumed = [])

theorem oneShotRun_spec {α : Type} (accepts : α → Bool) (rs : List α) (s : OneShotState α) :
    ((oneShotRun accepts s rs).consumed.length ≤
      s.consumed.length + (if s.registered then 1 else 0))
    ∧ (∀ p ∈ (oneShotRun accepts s rs).consumed, p ∈ s.consumed ∨ accepts p = true)
    ∧ ((oneShotRun accepts s rs).registered = true →
        (oneShotRun accepts s rs).consumed = s.consumed ∧ s.registered = true) := by
  induction rs generalizing s with
  | nil =>
    refine ⟨?_, ?_, ?_⟩
    · simp only [oneShotRun, List.foldl_nil]
      split <;> omega
    · intro p hp
      exact Or.inl hp
    · intro h
      exact ⟨rfl, h⟩
  | cons r rs ih =>
    have hstep : oneShotRun accepts s (r :: rs) = oneShotRun accepts (oneShotStep accepts s r) rs := rfl
    rw [hstep]
    by_cases hc : (s.registered && accepts r) = true
    · have hs : oneShotStep accepts s r =
          { registered := false, consumed := s.consumed ++ [r] } := by
        simp [oneShotStep, hc]
      rw [hs]
      obtain ⟨ih1, ih2, ih3⟩ := ih { registered := false, consumed := s.consumed ++ [r] }
      refine ⟨?_, ?_, ?_⟩
      · have hreg : s.registered = true := (Bool.and_eq_true _ _).mp hc |>.1
        simp only [List.length_append, List.length_cons, List.length_nil,
          Bool.false_eq_true, if_false, hreg, if_true] at ih1 ⊢
        omega
      · intro p hp
        rcases ih2 p hp with hmem | hacc
        · rcases List.mem_append.mp hmem with h1 | h2
          · exact Or.inl h1
          · have : p = r := List.mem_singleton.mp h2
            subst this
            exact Or.inr ((Bool.and_eq_true _ _).mp hc |>.2)
        · exact Or.inr hacc
      · intro h
        have := (ih3 h).2
        simp at this
    · have hs : oneShotStep accepts s r = s := by
        simp only [oneShotStep]
        rw [if_neg]
        simp [hc]
      rw [hs]
      exact ih s

theorem oneShotSound_of_accepts {α : Type} (accepts : α → Bool) (good : α → Prop)
    (h : ∀ p, accepts p = true → good p) (rs : List α) :
    OneShotSound accepts good rs := by
  obtain ⟨h1, h2, h3⟩ := oneShotRun_spec accepts rs oneShotInit
  refine ⟨by simpa [oneShotInit] using h1, ?_, ?_⟩
  · intro p hp
    rcases h2 p hp with hmem | hacc
    · simp [oneShotInit] at hmem
    · exact h p hacc
  · intro hreg
    exact (h3 hreg).1

/-- Claim C1: every DOM proxy request (query, queryOne, createElement, and
manipulations with a reply such as getText) registers a one-shot listener
that consumes at most one client reply; a consumed reply has the request's
requestId (and, for manipulations, its elementId and action), and the
listener unregisters itself on consumption, so later or non-matching
replies are discarded. -/
theorem dom_request_reply_consumed_at_most_once (elementId requestId : String)
    (updates : List ClientDOMElementUpdatedEventPayload)
    (queries : List ClientDOMQueryResultEventPayload)
    (queryOnes : List ClientDOMQueryOneResultEventPayload)
    (creates : List ClientDOMCreateResultEventPayload) :
    OneShotSound (getElementTextMatch elementId requestId)
      (fun p => p.action = "getText" ∧ p.elementId = elementId ∧ p.requestId = requestId)
      updates
    ∧ OneShotSound (hasElementClassMatch elementId requestId)
        (fun p => p.action = "hasClass" ∧ p.elementId = elementId ∧ p.requestId = requestId)
        updates
    ∧ OneShotSound (jsQueryMatch requestId) (fun p => p.requestId = requestId) queries
    ∧ OneShotSound (jsQueryOneMatch requestId) (fun p => p.requestId = requestId) queryOnes
    ∧ OneShotSound (jsCreateElementMatch requestId) (fun p => p.requestId = requestId) creates := by
  refine ⟨?_, ?_, ?_, ?_, ?_⟩ <;>
    apply oneShotSound_of_accepts <;>
    intro p hp <;>
    simp only [getElementTextMatch, hasElementClassMatch, jsQueryMatch, jsQueryOneMatch,
      jsCreateElementMatch, Bool.and_eq_true, beq_iff_eq] at hp <;>
    tauto

theorem dom_request_reply_consumed_at_most_once_witness :
    OneShotSound (jsQueryMatch "r1") (fun p => p.requestId = "r1")
      [({ requestId := "r1", elements := [] } : ClientDOMQueryResultEventPayload)] :=
  (dom_request_reply_consumed_at_most_once "e1" "r1" [] [{ requestId := "r1", elements := [] }]
    [] []).2.2.1

/-- Claim C10: a consumed DOM getter reply whose Result is not of the
expected dynamic type resolves the promise with the zero default — `""`
for getText/getStyle/getComputedStyle, `false` for
hasClass/hasAttribute/hasStyle/hasDataAttribute — and no reply can ever
reject one of these promises, because the reject half of each DOM promise
is discarded at creation. -/
theorem dom_getter_replies_never_reject (elementId requestId : String)
    (p : ClientDOMElementUpdatedEventPayload) :
    ((getElementTextOnReply elementId requestId p).isRejected = false
      ∧ (getElementStyleOnReply elementId requestId p).isRejected = false
      ∧ (getElementComputedStyleOnReply elementId requestId p).isRejected = false
      ∧ (hasElementClassOnReply elementId requestId p).isRejected = false
      ∧ (hasElementAttributeOnReply elementId requestId p).isRejected = false
      ∧ (hasElementStyleOnReply elementId requestId p).isRejected = false
      ∧ (hasElementDataAttributeOnReply elementId requestId p).isRejected = false)
    ∧ (p.result.isStr = false →
        (getElementTextMatch elementId requestId p = true →
          getElementTextOnReply elementId requestId p = .resolved (.str ""))
        ∧ (p.elementId = elementId → p.action = "getStyle" → p.requestId = requestId →
            getElementStyleOnReply elementId requestId p = .resolved (.str ""))
        ∧ (p.elementId = elementId → p.action = "getComputedStyle" → p.requestId = requestId →
            getElementComputedStyleOnReply elementId requestId p = .resolved (.str "")))
    ∧ (p.result.isBool = false →
        (hasElementClassMatch elementId requestId p = true →
          hasElementClassOnReply elementId requestId p = .resolved (.boolean false))
        ∧ (p.action = "hasAttribute" → p.elementId = elementId → p.requestId = requestId →
            hasElementAttributeOnReply elementId requestId p = .resolved (.boolean false))
        ∧ (p.action = "hasStyle" → p.elementId = elementId → p.requestId = requestId →
            hasElementStyleOnReply elementId requestId p = .resolved (.boolean false))
        ∧ (p.action = "hasDataAttribute" → p.elementId = elementId → p.requestId = requestId →
            hasElementDataAttributeOnReply elementId requestId p = .resolved (.boolean false))) := by
  obtain ⟨pe, pa, pr, pq⟩ := p
  refine ⟨⟨?_, ?_, ?_, ?_, ?_, ?_, ?_⟩, ?_, ?_⟩ <;>
    simp only [getElementTextOnReply, getElementStyleOnReply, getElementComputedStyleOnReply,
      hasElementClassOnReply, hasElementAttributeOnReply, hasElementStyleOnReply,
      hasElementDataAttributeOnReply, getElementTextMatch, hasElementClassMatch,
      GoValue.isStr, GoValue.isBool]
  case _ => split <;> (try split) <;> rfl
  case _ => split <;> (try split) <;> (try split) <;> rfl
  case _ => split <;> (try split) <;> (try split) <;> rfl
  case _ => split <;> (try split) <;> rfl
  case _ => split <;> (try split) <;> rfl
  case _ => split <;> (try split) <;> rfl
  case _ => split <;> (try split) <;> rfl
  case _ =>
    intro hns
    refine ⟨?_, ?_, ?_⟩
    · intro hm
      rw [if_pos hm]
      cases pr <;> simp_all
    · intro h1 h2 h3
      subst h1; subst h2; subst h3
      simp only [beq_self_eq_true, Bool.and_self, if_true]
      cases pr <;> simp_all
    · intro h1 h2 h3
      subst h1; subst h2; subst h3
      simp only [beq_self_eq_true, Bool.and_self, if_true]
      cases pr <;> simp_all
  case _ =>
    intro hnb
    refine ⟨?_, ?_, ?_, ?_⟩ <;>
      first
        | (intro hm
           rw [if_pos hm]
           cases pr <;> simp_all)
        | (intro h1 h2 h3
           subst h1; subst h2; subst h3
           simp only [beq_self_eq_true, Bool.and_self, if_true]
           cases pr <;> simp_all)

theorem dom_getter_replies_never_reject_witness :
    getElementTextOnReply "e1" "r1"
        { elementId := "e1", action := "getText", result := GoValue.null, requestId := "r1" }
      = .resolved (.str "")
    ∧ hasElementClassOnReply "e1" "r1"
        { elementId := "e1", action := "hasClass", result := GoValue.null, requestId := "r1" }
      = .resolved (.boolean false) := by
  constructor
  · exact ((dom_getter_replies_never_reject "e1" "r1"
      { elementId := "e1", action := "getText", result := GoValue.null,
        requestId := "r1" }).2.1 rfl).1 (by rfl)
  · exact ((dom_getter_replies_never_reject "e1" "r1"
      { elementId := "e1", action := "hasClass", result := GoValue.null,
        requestId := "r1" }).2.2 rfl).1 (by rfl)

theorem observeRun_frozen_callbacks (t : List ObserveInput) (s : ObserveState)
    (h : s.resultListenerRegistered = false) :
    (observeRun s t).callbackRuns = s.callbackRuns
    ∧ (observeRun s t).resultListenerRegistered = false := by
  induction t generalizing s with
  | nil => exact ⟨rfl, h⟩
  | cons i t ih =>
    have hstep : observeRun s (i :: t) = observeRun (observeStep s i) t := rfl
    rw [hstep]
    have hkeep : (observeStep s i).callbackRuns = s.callbackRuns
        ∧ (observeStep s i).resultListenerRegistered = false := by
      cases i with
      | observeResult oid elems =>
        simp [observeStep, h]
      | domReady =>
        simp only [observeStep]
        split <;> simp [h]
      | cancel =>
        simp [observeStep]
    obtain ⟨hc, hr⟩ := hkeep
    obtain ⟨ih1, ih2⟩ := ih (observeStep s i) hr
    exact ⟨by rw [ih1, hc], ih2⟩

/-- Claim C7: once the cancel function returned by `dom.observe` runs —
invoked by the script or by the Context's cleanup at unload — a
`dom:stopObserve` event carrying the observerId has been sent to the
client, and the observer's callback is never invoked for any
`dom:observeResult` (or any other) event processed afterwards. -/
theorem observe_cancel_stops_callbacks (s : ObserveState) (t : List ObserveInput) :
    DomServerEvent.stopObserve s.observerId ∈ (observeStep s .cancel).sent
    ∧ (observeRun (observeStep s .cancel) t).callbackRuns = (observeStep s .cancel).callbackRuns := by
  constructor
  · simp [observeStep]
  · exact (observeRun_frozen_callbacks t (observeStep s .cancel) (by simp [observeStep])).1

theorem obs_sends_after_ready_unregistered (t : List ObserveInput) (s : ObserveState)
    (h : s.readyListenerRegistered = false) :
    countObserveSends (observeRun s t).sent = countObserveSends s.sent := by
  induction t generalizing s with
  | nil => rfl
  | cons i t ih =>
    have hstep : observeRun s (i :: t) = observeRun (observeStep s i) t := rfl
    rw [hstep]
    have hkeep : countObserveSends (observeStep s i).sent = countObserveSends s.sent
        ∧ (observeStep s i).readyListenerRegistered = false := by
      cases i with
      | observeResult oid elems =>
        simp only [observeStep]
        split <;> (try split) <;> simp [h]
      | domReady =>
        simp [observeStep, h]
      | cancel =>
        simp [observeStep, countObserveSends, h]
    obtain ⟨hc, hr⟩ := hkeep
    rw [ih (observeStep s i) hr, hc]

theorem obs_sends_bounded (t : List ObserveInput) (s : ObserveState) :
    countObserveSends (observeRun s t).sent ≤ countObserveSends s.sent +
      (if s.readyListenerRegistered then 1 else 0) := by
  induction t generalizing s with
  | nil =>
    simp only [observeRun, List.foldl_nil]
    omega
  | cons i t ih =>
    have hstep : observeRun s (i :: t) = observeRun (observeStep s i) t := rfl
    rw [hstep]
    by_cases hr : s.readyListenerRegistered = true
    · cases i with
      | observeResult oid elems =>
        have heq : (observeStep s (.observeResult oid elems)).sent = s.sent ∧
            (observeStep s (.observeResult oid elems)).readyListenerRegistered =
              s.readyListenerRegistered := by
          simp only [observeStep]
          split <;> (try split) <;> simp
        calc countObserveSends (observeRun (observeStep s (.observeResult oid elems)) t).sent
            ≤ _ := ih _
          _ ≤ _ := by rw [heq.1, heq.2]
      | domReady =>
        have heq : observeStep s .domReady =
            { s with sent := s.sent ++ [.observe s.selector s.observerId],
                     readyListenerRegistered := false } := by
          simp [observeStep, hr]
        rw [heq, obs_sends_after_ready_unregistered t _ (by simp)]
        simp [countObserveSends, hr]
      | cancel =>
        have heq : observeStep s .cancel =
            { s with resultListenerRegistered := false, readyListenerRegistered := false,
                     observerStored := false, sent := s.sent ++ [.stopObserve s.observerId] } := rfl
        rw [heq, obs_sends_after_ready_unregistered t _ (by simp)]
        simp [countObserveSends, hr]
    · have hr2 : s.readyListenerRegistered = false := by
        cases hb : s.readyListenerRegistered
        · rfl
        · exact absurd hb hr
      rw [show observeRun (observeStep s i) t = observeRun s (i :: t) from rfl,
        obs_sends_after_ready_unregistered (i :: t) s hr2]
      omega

theorem obs_ready_fires (t : List ObserveInput) (s : ObserveState)
    (hr : s.readyListenerRegistered = true)
    (hmem : ObserveInput.domReady ∈ t)
    (hnc : ∀ i ∈ t, i ≠ ObserveInput.cancel) :
    countObserveSends (observeRun s t).sent = countObserveSends s.sent + 1 := by
  induction t generalizing s with
  | nil => cases hmem
  | cons i t ih =>
    have hstep : observeRun s (i :: t) = observeRun (observeStep s i) t := rfl
    rw [hstep]
    cases i with
    | observeResult oid elems =>
      have heq : (observeStep s (.observeResult oid elems)).sent = s.sent ∧
          (observeStep s (.observeResult oid elems)).readyListenerRegistered =
            s.readyListenerRegistered := by
        simp only [observeStep]
        split <;> (try split) <;> simp
      have hmem2 : ObserveInput.domReady ∈ t := by
        rcases List.mem_cons.mp hmem with h1 | h2
        · exact absurd h1.symm (by intro h; cases h)
        · exact h2
      rw [ih _ (heq.2.trans hr) hmem2 (fun j hj => hnc j (List.mem_cons_of_mem _ hj)), heq.1]
    | domReady =>
      have heq : observeStep s .domReady =
          { s with sent := s.sent ++ [.observe s.selector s.observerId],
                   readyListenerRegistered := false } := by
        simp [observeStep, hr]
      rw [heq, obs_sends_after_ready_unregistered t _ (by simp)]
      simp [countObserveSends]
    | cancel =>
      exact absurd rfl (hnc .cancel (List.mem_cons_self _ _))

/-- Claim C5, counterexample: a plugin observes `.card`; the client then
emits `dom:ready` twice (two reloads). The claim requires the observe
request to be re-issued after each `dom:ready` (three `dom:observe` sends
in total, the initial one plus two re-issues), but the one-shot
`dom:ready` listener set up by `jsObserve` unregisters itself after the
first event, so only two `dom:observe` events are ever sent. -/
theorem observe_domReady_second_reload_not_reissued :
    countObserveSends
        (observeRun (jsObserveInit ".card" "obs-1")
          [ObserveInput.domReady, ObserveInput.domReady]).sent = 2
    ∧ (2 : Nat) ≠ 3 := by
  constructor
  · rfl
  · decide

/-- Claim C5, amended: after `dom.observe`, only the first `dom:ready`
from the client re-issues the observer's observe request (its selector and
observerId); the `dom:ready` listener unregisters itself after that first
event, so later client reloads do not re-issue the request. In any run
without a cancel that contains a `dom:ready`, exactly two `dom:observe`
events are sent (the initial one plus the single re-issue), and in every
run at most two are sent. -/
theorem observe_domReady_reissues_only_once (selector observerId : String)
    (t : List ObserveInput) :
    countObserveSends (observeRun (jsObserveInit selector observerId) t).sent ≤ 2
    ∧ (ObserveInput.domReady ∈ t → (∀ i ∈ t, i ≠ ObserveInput.cancel) →
        countObserveSends (observeRun (jsObserveInit selector observerId) t).sent = 2) := by
  have hinit : countObserveSends (jsObserveInit selector observerId).sent = 1 := rfl
  constructor
  · have := obs_sends_bounded t (jsObserveInit selector observerId)
    rw [hinit] at this
    simpa [jsObserveInit] using this
  · intro hmem hnc
    rw [obs_ready_fires t (jsObserveInit selector observerId) rfl hmem hnc, hinit]

theorem observe_domReady_reissues_only_once_witness :
    countObserveSends
        (observeRun (jsObserveInit ".card" "obs-2") [ObserveInput.domReady]).sent = 2 :=
  (observe_domReady_reissues_only_once ".card" "obs-2" [ObserveInput.domReady]).2
    (List.mem_singleton.mpr rfl)
    (by
      intro i hi
      rw [List.mem_singleton] at hi
      subst hi
      intro h
      cases h)

theorem deliverToListener_foldl (ev : ClientPluginEvent) (ts : List String)
    (l : EventListener) :
    (ts.foldl
      (fun acc t => if t == ev.type then { acc with channel := acc.channel ++ [ev] } else acc)
      l).channel = l.channel ++ List.replicate (ts.countP (fun t => t == ev.type)) ev := by
  induction ts generalizing l with
  | nil => simp
  | cons t ts ih =>
    by_cases ht : (t == ev.type) = true
    · rw [List.foldl_cons, if_pos ht, ih, List.countP_cons, if_pos ht]
      simp [List.replicate_succ, List.append_assoc]
    · rw [List.foldl_cons, if_neg ht, ih, List.countP_cons, if_neg ht]
      simp

/-- Claim C2, counterexample: a broadcast envelope (empty extensionId)
whose client event type is a tray render type is not delivered to the
plugin's event listeners, although the claim's condition (extensionId
empty or matching) holds and the sole listener has an empty filter list
(so the claim says it receives every delivered event): the fan-out routes
it to the Tray Manager instead. -/
theorem fanout_tray_event_not_delivered :
    (handleClientEvent
        { extensionId := "plugin-a",
          listeners := [{ id := "l1", listenTo := [], channel := [] }],
          trayRenders := 0 }
        { type := PluginEvent,
          payload := some
            { extensionId := "", type := ClientRenderTraysEvent, payload := GoValue.null } })
      = { extensionId := "plugin-a",
          listeners := [{ id := "l1", listenTo := [], channel := [] }],
          trayRenders := 1 } := by
  rfl

/-- Claim C2, amended: an inbound envelope is fanned out to a plugin's
event listeners if and only if the envelope type is `events.PluginEvent`,
its payload is a map, its extensionId is empty (broadcast) or equals the
plugin's extension ID, and the client event type is not one of the tray
render types (which are routed to the Tray Manager instead); each listener
with a non-empty ListenTo list receives one copy of a delivered event per
occurrence of its type in the list — so at least one copy exactly when the
type occurs in the list — and a listener with an empty ListenTo list
receives every delivered event. -/
theorem fanout_delivery_characterization (u : UIFanoutState) (ev : WSEvent)
    (l : EventListener) (ce : ClientPluginEvent) :
    ((handleClientEvent u ev).listeners =
      match deliveredToListeners u ev with
      | some c => u.listeners.map (deliverToListener c)
      | none => u.listeners)
    ∧ (deliverToListener ce l).channel =
        l.channel ++ List.replicate (listenerCopies l ce) ce
    ∧ (0 < listenerCopies l ce ↔ l.listenTo = [] ∨ ce.type ∈ l.listenTo) := by
  refine ⟨?_, ?_, ?_⟩
  · simp only [handleClientEvent, deliveredToListeners]
    cases hp : ev.payload with
    | none => simp
    | some c =>
      by_cases h1 : (ev.type == PluginEvent) = true
      · by_cases h2 : (c.extensionId == "" || c.extensionId == u.extensionId) = true
        · by_cases h3 : (c.type == ClientRenderTraysEvent) = true
          · simp [h1, h2, h3]
          · by_cases h4 : (c.type == ClientRenderTrayEvent) = true
            · simp [h1, h2, h3, h4]
            · simp [h1, h2, h3, h4]
        · simp [h1, h2]
      · simp [h1]
  · simp only [deliverToListener, listenerCopies]
    split
    · exact deliverToListener_foldl ce l.listenTo l
    · simp
  · simp only [listenerCopies]
    split
    · rename_i hlen
      rw [List.countP_pos_iff]
      constructor
      · rintro ⟨a, ha, hq⟩
        right
        rw [beq_iff_eq] at hq
        exact hq ▸ ha
      · rintro (h0 | hmem)
        · rw [h0] at hlen
          simp at hlen
        · exact ⟨ce.type, hmem, beq_self_eq_true _⟩
    · rename_i hlen
      have h0 : l.listenTo = [] := by
        cases hl : l.listenTo with
        | nil => rfl
        | cons a as =>
          rw [hl] at hlen
          simp at hlen
      simp [h0]

theorem fanout_delivery_characterization_witness :
    ((handleClientEvent
        { extensionId := "plugin-a",
          listeners := [{ id := "l1", listenTo := ["ping"], channel := [] }],
          trayRenders := 0 }
        { type := PluginEvent,
          payload := some { extensionId := "", type := "ping", payload := GoValue.null } }).listeners
      = [{ id := "l1", listenTo := ["ping"], channel := [] }].map
          (deliverToListener { extensionId := "", type := "ping", payload := GoValue.null }))
    ∧ (0 < listenerCopies { id := "l1", listenTo := ["ping"], channel := [] }
          { extensionId := "", type := "ping", payload := GoValue.null }
        ↔ (["ping"] : List String) = [] ∨ "ping" ∈ (["ping"] : List String)) := by
  constructor
  · exact (fanout_delivery_characterization
      { extensionId := "plugin-a",
        listeners := [{ id := "l1", listenTo := ["ping"], channel := [] }],
        trayRenders := 0 }
      { type := PluginEvent,
        payload := some { extensionId := "", type := "ping", payload := GoValue.null } }
      { id := "l1", listenTo := ["ping"], channel := [] }
      { extensionId := "", type := "ping", payload := GoValue.null }).1
  · exact (fanout_delivery_characterization
      { extensionId := "plugin-a",
        listeners := [{ id := "l1", listenTo := ["ping"], channel := [] }],
        trayRenders := 0 }
      { type := PluginEvent,
        payload := some { extensionId := "", type := "ping", payload := GoValue.null } }
      { id := "l1", listenTo := ["ping"], channel := [] }
      { extensionId := "", type := "ping", payload := GoValue.null }).2.2

/-- Claim C6, counterexample: sending to a full listener channel
(capacity 1, one queued event) blocks the sender; the queued (oldest)
event is not dropped and the new (newest) event is not enqueued, contrary
to the claim that the oldest event is dropped so that the newest is
retained and the sender does not block. -/
theorem channelSend_full_blocks :
    channelSend 1 [(0 : Nat)] 1 = none
    ∧ channelSend 1 [(0 : Nat)] 1 ≠ some [1] := by
  constructor
  · rfl
  · decide

/-- Claim C6, amended: listener channels are bounded (Go channels of fixed
capacity), and the fan-out loop of `UI.Register` sends with a plain
blocking send: when the channel has room the event is appended at the
back, and when the channel is full the sender blocks until the listener
drains — no event is dropped and no warning is emitted at the send
site. -/
theorem channelSend_semantics {α : Type} (cap : Nat) (q : List α) (x : α) :
    (q.length < cap → channelSend cap q x = some (q ++ [x]))
    ∧ (cap ≤ q.length → channelSend cap q x = none) := by
  constructor
  · intro h
    simp [channelSend, h]
  · intro h
    simp [channelSend, Nat.not_lt.mpr h]

theorem channelSend_semantics_witness :
    channelSend 2 ["a"] "b" = some ["a", "b"] ∧ channelSend 1 ["a"] "b" = none :=
  ⟨(channelSend_semantics 2 ["a"] "b").1 (by decide),
   (channelSend_semantics 1 ["a"] "b").2 (by decide)⟩

/-- Claim C8, counterexample: calling `$ui.register` twice does not
replace the prior Context. After the second `Register` the Context and its
listener table are the very ones of the first registration, and two
fan-out goroutines are serving events (the claim requires a fresh Context
and that events be served by it alone). -/
theorem Register_twice_keeps_same_context :
    (Register (Register NewUIState)).contextId = (Register NewUIState).contextId
    ∧ (Register (Register NewUIState)).listenerTableId = (Register NewUIState).listenerTableId
    ∧ (Register (Register NewUIState)).fanoutGoroutines = 2 := by
  refine ⟨rfl, rfl, rfl⟩

/-- Claim C8, amended: calling `$ui.register` again reuses the existing
Context rather than replacing it - `UI.Register` never allocates a new
Context or listener table; it overwrites the Context's WebSocket
subscriber with a fresh subscription, starts one more fan-out goroutine,
and re-runs the setup callback against the same Context. -/
theorem Register_reuses_context (u : UIRegistrationState) :
    (Register u).contextId = u.contextId
    ∧ (Register u).listenerTableId = u.listenerTableId
    ∧ (Register u).subscriberId = some u.nextId
    ∧ (Register u).fanoutGoroutines = u.fanoutGoroutines + 1 :=
  ⟨rfl, rfl, rfl, rfl⟩

theorem effect_budget_invariant (ops : List EffectOp) (s : EffectBudgetState)
    (h1 : s.executedInWindow ≤ MAX_EFFECT_CALLBACKS)
    (h2 : s.interrupted = false →
      s.effectCount ≤ MAX_EFFECT_CALLBACKS ∧ s.executedInWindow ≤ s.effectCount) :
    (effectRun s ops).executedInWindow ≤ MAX_EFFECT_CALLBACKS
    ∧ ((effectRun s ops).interrupted = false →
        (effectRun s ops).effectCount ≤ MAX_EFFECT_CALLBACKS
        ∧ (effectRun s ops).executedInWindow ≤ (effectRun s ops).effectCount) := by
  induction ops generalizing s with
  | nil => exact ⟨h1, h2⟩
  | cons op ops ih =>
    have hstep : effectRun s (op :: ops) = effectRun (effectStep s op) ops := rfl
    rw [hstep]
    apply ih
    · cases op with
      | effect =>
        simp only [effectStep]
        split
        · exact h1
        · split
          · simpa using h1
          · rename_i hint hle
            simp only []
            have := h2 (by cases hb : s.interrupted; rfl; exact absurd hb hint)
            omega
      | reset => simp [effectStep]
    · cases op with
      | effect =>
        simp only [effectStep]
        split
        · exact h2
        · rename_i hint
          have hs := h2 (by cases hb : s.interrupted; rfl; exact absurd hb hint)
          split
          · intro hc
            simp at hc
          · intro _
            simp only []
            omega
      | reset =>
        simp only [effectStep]
        intro _
        exact ⟨Nat.zero_le _, Nat.le_refl _⟩

/-- Claim C3: (spec-modelled Scheduler) for every plugin, at most
`MAX_EFFECT_CALLBACKS` = 100 effect callbacks execute within any reset
window of `RESET_EFFECT_CALLBACK_INTERVAL` = 1 second, and a submission
that would exceed the budget transitions the VM to Interrupted instead of
executing. -/
theorem effect_budget_bounded (ops : List EffectOp) (s : EffectBudgetState) :
    MAX_EFFECT_CALLBACKS = 100
    ∧ RESET_EFFECT_CALLBACK_INTERVAL_MS = 1000
    ∧ (effectRun initEffectBudget ops).executedInWindow ≤ MAX_EFFECT_CALLBACKS
    ∧ (s.interrupted = false → MAX_EFFECT_CALLBACKS ≤ s.effectCount →
        (effectStep s .effect).interrupted = true
        ∧ (effectStep s .effect).executedInWindow = s.executedInWindow) := by
  refine ⟨rfl, rfl, ?_, ?_⟩
  · exact (effect_budget_invariant ops initEffectBudget (by simp [initEffectBudget])
      (fun _ => by simp [initEffectBudget])).1
  · intro hint hge
    simp only [effectStep, hint]
    rw [if_neg (by simp), if_pos (by simp only [MAX_EFFECT_CALLBACKS] at hge ⊢; omega)]
    exact ⟨rfl, rfl⟩

theorem effect_budget_bounded_witness :
    (effectStep { effectCount := 100, interrupted := false, executedInWindow := 100 }
        .effect).interrupted = true
    ∧ (effectStep { effectCount := 100, interrupted := false, executedInWindow := 100 }
        .effect).executedInWindow = 100 :=
  (effect_budget_bounded []
    { effectCount := 100, interrupted := false, executedInWindow := 100 }).2.2.2
    rfl (by decide)

theorem exceptionRun_closed_form (n : Nat) :
    exceptionRun n =
      if n ≤ MAX_EXCEPTIONS
      then { exceptionCount := n, interrupted := false, errorEvents := 0 }
      else { exceptionCount := MAX_EXCEPTIONS + 1, interrupted := true, errorEvents := 1 } := by
  induction n with
  | zero => rfl
  | succ n ih =>
    have hstep : exceptionRun (n + 1) = handleException (exceptionRun n) := rfl
    rw [hstep, ih]
    by_cases h1 : n + 1 ≤ MAX_EXCEPTIONS
    · rw [if_pos (by omega), if_pos h1]
      simp only [handleException, MAX_EXCEPTIONS] at *
      rw [if_neg (by simp), if_neg (by omega)]
    · by_cases h2 : n ≤ MAX_EXCEPTIONS
      · have hn : n = MAX_EXCEPTIONS := by omega
        rw [if_pos h2, if_neg h1]
        subst hn
        simp [handleException]
      · rw [if_neg h2, if_neg h1]
        simp [handleException]

/-- Claim C4: (spec-modelled exception policy) each uncaught exception on
a live VM increments the per-plugin exception counter, at most
`MAX_EXCEPTIONS` = 5 uncaught exceptions are observed before the VM is
interrupted, and once the counter exceeds `MAX_EXCEPTIONS` the VM is
Interrupted and exactly one plugin-level error event has been emitted. -/
theorem exception_budget (n : Nat) :
    MAX_EXCEPTIONS = 5
    ∧ ((exceptionRun n).interrupted = false →
        (exceptionRun n).exceptionCount = n ∧ n ≤ MAX_EXCEPTIONS
        ∧ (exceptionRun (n + 1)).exceptionCount = n + 1)
    ∧ (MAX_EXCEPTIONS < n →
        (exceptionRun n).interrupted = true ∧ (exceptionRun n).errorEvents = 1) := by
  refine ⟨rfl, ?_, ?_⟩
  · intro hint
    rw [exceptionRun_closed_form n] at hint ⊢
    by_cases h : n ≤ MAX_EXCEPTIONS
    · rw [if_pos h] at hint ⊢
      refine ⟨rfl, h, ?_⟩
      rw [exceptionRun_closed_form (n + 1)]
      by_cases h2 : n + 1 ≤ MAX_EXCEPTIONS
      · rw [if_pos h2]
      · have : n = MAX_EXCEPTIONS := by omega
        rw [if_neg h2, this]
    · rw [if_neg h] at hint
      simp at hint
  · intro hgt
    rw [exceptionRun_closed_form n, if_neg (by omega)]
    exact ⟨rfl, rfl⟩

theorem exception_budget_witness :
    (exceptionRun 6).interrupted = true ∧ (exceptionRun 6).errorEvents = 1 :=
  (exception_budget 6).2.2 (by decide)

/-- Claim C9: `SetModulesPartial` applied to a fresh `NewAppContext` with a
modules record whose only non-nil field is `MediaPlayerRepository` leaves
the `mediaplayerRepo` handle unset (None): the source of
`SetModulesPartial` contains no nil-check-and-set for
`MediaPlayerRepository`, contradicting its own doc comment ("sets modules
if they are not nil") and the claim; every handle of `NewAppContext`
starts as None, and the other provided handles are set as claimed. -/
theorem SetModulesPartial_skips_mediaPlayerRepository :
    (SetModulesPartial (NewAppContext Nat Nat Nat Nat Nat)
        { database := none, animeLibraryPaths := none, anilistPlatform := none,
          playbackManager := none, mediaPlayerRepository := some 7,
          wsEventManager := none, onRefreshAnilistAnimeCollection := none,
          onRefreshAnilistMangaCollection := none }).mediaplayerRepo = none
    ∧ (NewAppContext Nat Nat Nat Nat Nat).mediaplayerRepo = none
    ∧ (SetModulesPartial (NewAppContext Nat Nat Nat Nat Nat)
        { database := some 3, animeLibraryPaths := none, anilistPlatform := none,
          playbackManager := none, mediaPlayerRepository := some 7,
          wsEventManager := none, onRefreshAnilistAnimeCollection := none,
          onRefreshAnilistMangaCollection := none })
      = { animeLibraryPaths := none, wsEventManager := none, database := some 3,
          playbackManager := none, mediaplayerRepo := none, anilistPlatform := none,
          onRefreshAnilistAnimeCollection := none, onRefreshAnilistMangaCollection := none } := by
  refine ⟨rfl, rfl, rfl⟩

end Seanime
